import Mathlib

/-!
Verification of the SDCC SD-card cloner (src/sdcc_cloner.py, src/cloner_mock.py).

The Python classes `SDCardCloner` (production) and `HeadlessCloner` (mock)
are shallowly embedded below.  External effects (sysfs reads, symlink
resolution, subprocess exit statuses, the mount table, the GPIO signal)
are passed in explicitly as oracles, and the functions return the values
and event traces the Python code produces.
-/

/-- A detected device, as built by `detect_devices` in both variants:
`{'device': ..., 'name': ..., 'size_gb': ..., 'model': ...}`.
`size_gb` is the Python float produced by `round(size * 512 / 1024**3, 2)`;
for the sector counts involved this float is an exact rational, so it is
modelled as `ℚ`. -/
structure Device where
  device : String
  name : String
  size_gb : ℚ
  model : String
deriving DecidableEq, Repr

instance : Inhabited Device := ⟨⟨"", "", 0, ""⟩⟩

/-- The sort key of `sorted(devices, key=lambda x: x['size_gb'])`:
compare devices by their `size_gb` field. -/
def deviceLe (a b : Device) : Prop := a.size_gb ≤ b.size_gb

instance : DecidableRel deviceLe := fun a b => inferInstanceAs (Decidable (a.size_gb ≤ b.size_gb))

instance : IsTotal Device deviceLe := ⟨fun a b => le_total a.size_gb b.size_gb⟩

instance : IsTrans Device deviceLe := ⟨fun _ _ _ h h' => le_trans h h'⟩

namespace SDCC

/-- `SDCardCloner.identify_source_dest` (src/sdcc_cloner.py lines 135-151):
requires at least 2 devices (else returns `None, None`), sorts by
`size_gb` with Python's stable sort (modelled by the stable
`List.insertionSort`), and returns `(sorted_devices[0], sorted_devices[-1])`. -/
def identify_source_dest (devices : List Device) : Option (Device × Device) :=
  if devices.length < 2 then none
  else
    let sorted_devices := List.insertionSort deviceLe devices
    some (sorted_devices.headI, sorted_devices.getLastI)

/-- `SDCardCloner.validate_clone` (src/sdcc_cloner.py lines 153-160):
`False` when `source['size_gb'] > dest['size_gb']`, else `True`. -/
def validate_clone (source dest : Device) : Bool :=
  if source.size_gb > dest.size_gb then false else true

end SDCC

namespace Mock

/-- `HeadlessCloner.identify_source_dest` (src/cloner_mock.py lines 144-165):
same selection as the production variant but returns the two `'device'`
path strings. -/
def identify_source_dest (devices : List Device) : Option (String × String) :=
  if devices.length < 2 then none
  else
    let sorted_devs := List.insertionSort deviceLe devices
    some (sorted_devs.headI.device, sorted_devs.getLastI.device)

/-- Python truthiness test `not source` for the `Option String` arguments of
`HeadlessCloner.validate_clone`: `None` and the empty string are falsy. -/
def pyFalsy : Option String → Bool
  | none => true
  | some s => s == ""

/-- `HeadlessCloner.get_device_size` (src/cloner_mock.py lines 184-192):
runs `blockdev --getsize64` and parses its output; on any exception
(spawn failure or unparsable output) returns `0`.  `sizeOf` is the
oracle for that subprocess: `none` models the exception path, `some n`
a successfully parsed byte count (`blockdev` prints a nonnegative size). -/
def get_device_size (sizeOf : String → Option Nat) (device : String) : Nat :=
  (sizeOf device).getD 0

/-- `HeadlessCloner.validate_clone` (src/cloner_mock.py lines 167-182):
`(False, "Missing devices")` when either argument is falsy, then
`(False, "Destination too small")` when `dest_size < source_size`,
else `(True, "OK")`. -/
def validate_clone (sizeOf : String → Option Nat) (source dest : Option String) :
    Bool × String :=
  if pyFalsy source || pyFalsy dest then (false, "Missing devices")
  else
    let source_size := get_device_size sizeOf (source.getD "")
    let dest_size := get_device_size sizeOf (dest.getD "")
    if dest_size < source_size then (false, "Destination too small")
    else (true, "OK")

/-- The clone strategy chosen per partition. -/
inductive Strategy where
  | FilesystemAware
  | RawBlockCopy
deriving DecidableEq, Repr

/-- The filesystem types handled by the filesystem-aware branch of
`HeadlessCloner.clone_with_rsync` (src/cloner_mock.py line 227):
`fstype in ['ext4', 'fat32', 'vfat', 'ntfs', 'exfat']`. -/
def fsAwareTypes : List String := ["ext4", "fat32", "vfat", "ntfs", "exfat"]

/-- The per-partition strategy dispatch of `HeadlessCloner.clone_with_rsync`
(src/cloner_mock.py lines 225-232): listed filesystem types go to
`clone_filesystem`, everything else to `raw_clone`. -/
def select_strategy (fstype : String) : Strategy :=
  if fstype ∈ fsAwareTypes then .FilesystemAware else .RawBlockCopy

end Mock

/-- Round a rational to the nearest integer, ties to even — the rounding
of Python 3's `round` applied to an exactly-representable float. -/
def roundHalfEven (q : ℚ) : ℤ :=
  let f := ⌊q⌋
  let r := q - f
  if r < 1/2 then f
  else if r > 1/2 then f + 1
  else if f % 2 = 0 then f else f + 1

/-- Python's `round(x, 2)`: round to the nearest multiple of `1/100`,
ties to even. -/
def round2 (q : ℚ) : ℚ := (roundHalfEven (100 * q) : ℚ) / 100

/-- Character-list version of the textual leading-segment test. -/
def leadsWith : List Char → List Char → Bool
  | [], _ => true
  | _ :: _, [] => false
  | a :: as, b :: bs => a == b && leadsWith as bs

/-- Python's `str.startswith(p)`, as used by `detect_devices`
(src/sdcc_cloner.py lines 94 and 100). -/
def pyStartswith (s p : String) : Bool := leadsWith p.data s.data

namespace SDCC

/-- One entry of the `/sys/block` iteration in
`SDCardCloner.detect_devices` (src/sdcc_cloner.py lines 87-133):
the directory name, whether it is a directory, the sector count read from
`/sys/block/<name>/size` (`none` when the read or parse raises, which the
code catches by skipping the device), the contents of
`/sys/block/<name>/device/model` (`none` when the file does not exist),
and the result of `Path('/dev/disk/by-id/').glob(f'*{name}')`. -/
structure BlockEntry where
  name : String
  isDir : Bool
  sectors : Option Nat
  model : Option String
  byId : List String
deriving DecidableEq, Repr

/-- `SDCardCloner.detect_devices` (src/sdcc_cloner.py lines 87-133) over an
explicit `/sys/block` listing and a symlink-resolution oracle `resolve`
(`Path.resolve()` on a by-id entry follows the symlink).  Non-directories,
`loop*`/`ram*` pseudo-devices and the `mmcblk0*` boot device are skipped;
`size_gb` is `round(size * 512 / 1024**3, 2)`; the recorded path is
`by_id[0].resolve()` when a by-id glob match exists, else `/dev/<name>`. -/
def detect_devices (resolve : String → String) (entries : List BlockEntry) :
    List Device :=
  entries.filterMap fun e =>
    if !e.isDir || pyStartswith e.name "loop" || pyStartswith e.name "ram" then none
    else if pyStartswith e.name "mmcblk0" then none
    else match e.sectors with
      | none => none
      | some size =>
        let size_gb : ℚ := (size * 512 : ℚ) / 1024 ^ 3
        let model := e.model.getD "Unknown"
        let device_path :=
          match e.byId with
          | [] => "/dev/" ++ e.name
          | p :: _ => resolve p
        some { device := device_path, name := e.name,
               size_gb := round2 size_gb, model := model }

/-- Modelled from the spec: the spec's own formula for a device's size,
`sectorCount * 512` bytes "converted to decimal gigabytes" (divided by
`10^9`) and rounded to 2 decimal places.  Stated here only to be compared
with the conversion `detect_devices` actually performs. -/
def spec_decimal_size_gb (sectors : Nat) : ℚ :=
  round2 ((sectors * 512 : ℚ) / 10 ^ 9)

/-- The size conversion `detect_devices` actually performs
(src/sdcc_cloner.py lines 106-107 and 122): binary gigabytes,
`round(size * 512 / 1024**3, 2)`. -/
def code_size_gb (sectors : Nat) : ℚ :=
  round2 ((sectors * 512 : ℚ) / 1024 ^ 3)

/-- `SDCardCloner.clone_device` (src/sdcc_cloner.py lines 162-210), reduced
to its outcome: the `dd` subprocess is spawned with `Popen` and waited on
(`none` models `Popen` raising, `some c` an exit status `c`); a non-zero
status raises `CalledProcessError` (line 196-197), and any exception is
logged, shows the error pattern and re-raises, so the attempt fails. -/
def clone_device_outcome (dd : Option Int) : Bool :=
  match dd with
  | none => false
  | some c => c == 0

end SDCC

namespace Mock

/-- One external-process event of `HeadlessCloner.clone_filesystem`:
`run argv c` is `subprocess.run(argv, check=True)` exiting with status `c`
(a non-zero `c` raises `CalledProcessError`); `popenWait argv c` is the
`subprocess.Popen(argv)` + `process.wait()` pair, whose status `c` is NOT
checked by the code; `spawnFail argv` is `Popen` itself raising. -/
inductive Ev where
  | run (argv : List String) (code : Int)
  | popenWait (argv : List String) (code : Int)
  | spawnFail (argv : List String)
deriving DecidableEq, Repr

/-- Oracle for the external world seen by `clone_filesystem`:
`exit argv` is the status `subprocess.run(argv)` would return,
`spawn argv` the result of a `Popen`+`wait` (`none` = `Popen` raises),
and `ismount p` the answer of `os.path.ismount(p)`. -/
structure ExecEnv where
  exit : List String → Int
  spawn : List String → Option Int
  ismount : String → Bool

/-- The `mkfs_cmd` dictionary of `HeadlessCloner.clone_filesystem`
(src/cloner_mock.py lines 239-245). -/
def mkfs_cmd (fstype dest : String) : Option (List String) :=
  match fstype with
  | "ext4" => some ["mkfs.ext4", "-F", dest]
  | "vfat" => some ["mkfs.vfat", "-F", "32", dest]
  | "fat32" => some ["mkfs.vfat", "-F", "32", dest]
  | "ntfs" => some ["mkfs.ntfs", "-F", dest]
  | "exfat" => some ["mkfs.exfat", dest]
  | _ => none

/-- The fixed destination mountpoint `temp_mount = '/mnt/temp_clone'`
(src/cloner_mock.py line 251). -/
def tempMountPt : String := "/mnt/temp_clone"

/-- The fixed source mountpoint `source_temp = '/mnt/temp_source'`
(src/cloner_mock.py line 268). -/
def sourceTempPt : String := "/mnt/temp_source"

/-- `HeadlessCloner.clone_filesystem` (src/cloner_mock.py lines 234-295)
as a trace function: given the oracle and the `source`, `dest`, `fstype`
arguments, it returns the list of external-process events in order and
`true` when the Python call returns normally / `false` when it raises.
Control flow mirrored from the code:
1. if `fstype in mkfs_cmd`: `subprocess.run(['sudo'] + mkfs_cmd[fstype], check=True)`;
2. `subprocess.run(['sudo','mount',dest,temp_mount], check=True)`;
3. `try:` — if `not os.path.ismount(source)`: mount `source` on
   `source_temp` (check=True) and replace `rsync_cmd[-2]`;
   `Popen(rsync_cmd)` + `wait()` with NO status check;
   `if source_mounted: subprocess.run(['sudo','umount',source_temp], check=True)`;
4. `finally:` `subprocess.run(['sudo','umount',temp_mount], check=True)`. -/
def clone_filesystem (env : ExecEnv) (source dest fstype : String) :
    List Ev × Bool :=
  let pre : List Ev × Bool :=
    match mkfs_cmd fstype dest with
    | none => ([], true)
    | some argv =>
      let c := env.exit ("sudo" :: argv)
      ([.run ("sudo" :: argv) c], c == 0)
  if !pre.2 then (pre.1, false)
  else
    let mc := env.exit ["sudo", "mount", dest, tempMountPt]
    let mEv : Ev := .run ["sudo", "mount", dest, tempMountPt] mc
    if mc != 0 then (pre.1 ++ [mEv], false)
    else
      let rsync0 := ["sudo", "rsync", "-avh", "--progress",
                     "--exclude", "/lost+found", source ++ ":/", tempMountPt ++ "/"]
      let body : List Ev × Bool :=
        if env.ismount source then
          match env.spawn rsync0 with
          | none => ([.spawnFail rsync0], false)
          | some c => ([.popenWait rsync0 c], true)
        else
          let ms := env.exit ["sudo", "mount", source, sourceTempPt]
          let msEv : Ev := .run ["sudo", "mount", source, sourceTempPt] ms
          if ms != 0 then ([msEv], false)
          else
            let rsync1 := ["sudo", "rsync", "-avh", "--progress",
                           "--exclude", "/lost+found", sourceTempPt ++ "/",
                           tempMountPt ++ "/"]
            match env.spawn rsync1 with
            | none => ([msEv, .spawnFail rsync1], false)
            | some c =>
              let u := env.exit ["sudo", "umount", sourceTempPt]
              ([msEv, .popenWait rsync1 c, .run ["sudo", "umount", sourceTempPt] u],
               u == 0)
      let uf := env.exit ["sudo", "umount", tempMountPt]
      (pre.1 ++ [mEv] ++ body.1 ++ [.run ["sudo", "umount", tempMountPt] uf],
       body.2 && (uf == 0))

/-- The mounts actually performed in a trace: `mount` commands that exited
with status 0, as (device, mountpoint) pairs. -/
def mountsPerformed (evs : List Ev) : List (String × String) :=
  evs.filterMap fun e =>
    match e with
    | .run ["sudo", "mount", dev, mp] c => if c == 0 then some (dev, mp) else none
    | _ => none

/-- The mountpoints for which an `umount` command was issued in a trace
(regardless of its exit status). -/
def umountsIssued (evs : List Ev) : List String :=
  evs.filterMap fun e =>
    match e with
    | .run ["sudo", "umount", mp] _ => some mp
    | _ => none

/-- Whether a trace contains a `Popen`-raised event. -/
def hasSpawnFail (evs : List Ev) : Bool :=
  evs.any fun e =>
    match e with
    | .spawnFail _ => true
    | _ => false

end Mock

/-- The three indicator LEDs (BCM pins 22, 23, 24). -/
inductive Pin where
  | ready
  | cloning
  | done
deriving DecidableEq, Repr

/-- The GPIO output state of the three LEDs (`True` = lit).  Initial state:
`setup_gpio` drives every LED pin LOW (src/sdcc_cloner.py lines 42-44). -/
structure Leds where
  ready : Bool
  cloning : Bool
  done : Bool
deriving DecidableEq, Repr

/-- A single LED-manipulating call of `SDCardCloner`:
`on`/`off` are `led_on`/`led_off` (GPIO.output HIGH/LOW, lines 69-75),
`offAll` is `led_off_all` (lines 77-80), `blinkReady` is `blink_ready`
(lines 82-85: read the READY pin and write its negation). -/
inductive LedOp where
  | on (p : Pin)
  | off (p : Pin)
  | offAll
  | blinkReady
deriving DecidableEq, Repr

/-- Write one LED pin. -/
def ledWrite (p : Pin) (b : Bool) (s : Leds) : Leds :=
  match p with
  | .ready => { s with ready := b }
  | .cloning => { s with cloning := b }
  | .done => { s with done := b }

/-- Apply one LED operation to the pin state. -/
def applyLedOp (s : Leds) (op : LedOp) : Leds :=
  match op with
  | .on p => ledWrite p true s
  | .off p => ledWrite p false s
  | .offAll => ledWrite .ready false (ledWrite .cloning false (ledWrite .done false s))
  | .blinkReady => ledWrite .ready (!s.ready) s

/-- Run a sequence of LED operations. -/
def runLedOps (s : Leds) (ops : List LedOp) : Leds :=
  ops.foldl applyLedOp s

/-- How many indicators are lit. -/
def litCount (s : Leds) : Nat :=
  (if s.ready then 1 else 0) + (if s.cloning then 1 else 0) +
    (if s.done then 1 else 0)

/-- The exact sequence of LED calls `SDCardCloner` performs on a successful
clone attempt, from the button-press handling through the next loop
iteration (src/sdcc_cloner.py):
line 236 `led_off_all()`; line 237 `led_on(LED_READY)` (solid red while
detecting); clone_device lines 168-169 `led_off_all(); led_on(LED_CLONING)`;
success path lines 203-204 `led_off(LED_CLONING); led_on(LED_DONE)`;
then `clone_device` returns, and the next main-loop iteration taking the
`time.time() % 2 < 0.5` branch calls `blink_ready()` (lines 228-229).
No other LED call occurs in between: the success path of `clone_device`
never calls `led_off_all` or `led_off(LED_DONE)` before returning. -/
def sdccSuccessOps : List LedOp :=
  [.offAll, .on .ready, .offAll, .on .cloning, .off .cloning, .on .done,
   .blinkReady]

namespace SDCC

/-- The trigger structure of `SDCardCloner.main_loop`
(src/sdcc_cloner.py lines 226-276), abstracted over the sequence of button
samples (`true` = `GPIO.input(BTN_PIN) == GPIO.LOW`, i.e. pressed), counting
entries into the button-press handling block (each one a Ready-to-Detecting
transition starting a clone attempt).  Each iteration polls once.  `pass2dd k`
is the outcome oracle for the `k`-th triggered pass: `true` when detection,
classification and validation all succeed so the pass reaches
`clone_device` (line 266) — whether the clone then succeeds or raises into
the `except` at lines 268-270, control falls through to the release-wait
`while GPIO.input(BTN_PIN) == GPIO.LOW` (lines 273-274), which consumes
every following sample until the button is released; `false` when the pass
ends at one of the `continue` statements (no devices, line 246;
classification failure, line 258; validation failure, line 263), which
jump back to the top of `while True` and SKIP the release-wait, so the
next poll of a held button triggers again. -/
def mainLoopAttempts (pass2dd : Nat → Bool) : Nat → List Bool → Nat
  | _, [] => 0
  | k, b :: rest =>
    if b then
      if pass2dd k then 1 + mainLoopAttempts pass2dd (k + 1) (rest.dropWhile id)
      else 1 + mainLoopAttempts pass2dd (k + 1) rest
    else mainLoopAttempts pass2dd k rest
termination_by _ l => l.length
decreasing_by
  · exact Nat.lt_succ_of_le (List.dropWhile_sublist id).length_le
  · simp
  · simp

end SDCC

namespace Mock

/-- The trigger structure of `HeadlessCloner.main_loop`
(src/cloner_mock.py lines 327-367) with `TEST_MODE = True`, abstracted over
the button samples, threading the `button_pressed` flag: an attempt starts
when the sample is pressed and the flag is clear (line 337); the flag is
set at line 338, but since `TEST_MODE` is true the release-wait
(lines 362-364) is skipped and line 365 resets the flag in the same
iteration, so the recursive call after an attempt passes `false`. -/
def mainLoopAttempts : Bool → List Bool → Nat
  | _, [] => 0
  | button_pressed, b :: rest =>
    if b && !button_pressed then 1 + mainLoopAttempts false rest
    else mainLoopAttempts button_pressed rest

end Mock

/-! ## Supporting lemmas -/

/-- The head of a size-sorted device list has minimal `size_gb`. -/
theorem sorted_headI_min {l : List Device} (hs : List.Sorted deviceLe l) :
    ∀ x ∈ l, l.headI.size_gb ≤ x.size_gb := by
  cases l with
  | nil => simp
  | cons a t =>
    intro x hx
    rcases List.mem_cons.mp hx with rfl | hx
    · exact le_refl _
    · exact List.rel_of_sorted_cons hs x hx

/-- The last element of a size-sorted device list has maximal `size_gb`. -/
theorem sorted_getLastI_max {l : List Device} (hs : List.Sorted deviceLe l) :
    ∀ x ∈ l, x.size_gb ≤ l.getLastI.size_gb := by
  intro x hx
  have hne : l ≠ [] := List.ne_nil_of_mem hx
  have hlast : l.getLastI = l.getLast hne := by
    rw [List.getLastI_eq_getLast?, List.getLast?_eq_getLast l hne]
  rw [hlast, List.getLast_eq_getElem l hne]
  obtain ⟨i, hi, rfl⟩ := List.mem_iff_getElem.mp hx
  rcases Nat.lt_or_ge i (l.length - 1) with hlt | hge
  · exact List.pairwise_iff_getElem.mp hs i (l.length - 1) hi (by omega) hlt
  · have heq : i = l.length - 1 := by omega
    subst heq
    exact le_refl _

/-- The head of a nonempty list is a member. -/
theorem headI_mem_of_ne_nil {l : List Device} (h : l ≠ []) : l.headI ∈ l := by
  cases l with
  | nil => exact absurd rfl h
  | cons a t => exact List.mem_cons_self a t

/-- The last element (`getLastI`) of a nonempty list is a member. -/
theorem getLastI_mem_of_ne_nil {l : List Device} (h : l ≠ []) : l.getLastI ∈ l := by
  have hlast : l.getLastI = l.getLast h := by
    rw [List.getLastI_eq_getLast?, List.getLast?_eq_getLast l h]
  rw [hlast]
  exact List.getLast_mem h

/-- `identify_source_dest` on a list of at least two devices returns the pair
of a minimal-size and a maximal-size member (no distinctness needed). -/
theorem identify_source_dest_spec {l : List Device} (hlen : 2 ≤ l.length) :
    ∃ s d, SDCC.identify_source_dest l = some (s, d) ∧ s ∈ l ∧ d ∈ l ∧
      (∀ x ∈ l, s.size_gb ≤ x.size_gb) ∧ (∀ x ∈ l, x.size_gb ≤ d.size_gb) := by
  have hif : ¬l.length < 2 := by omega
  have hperm : List.Perm (List.insertionSort deviceLe l) l :=
    List.perm_insertionSort _ _
  have hs : List.Sorted deviceLe (List.insertionSort deviceLe l) :=
    List.sorted_insertionSort _ _
  have hne : List.insertionSort deviceLe l ≠ [] := by
    intro h0
    have hlen' := hperm.length_eq
    rw [h0] at hlen'
    simp at hlen'
    omega
  refine ⟨(List.insertionSort deviceLe l).headI,
    (List.insertionSort deviceLe l).getLastI, ?_, ?_, ?_, ?_, ?_⟩
  · simp [SDCC.identify_source_dest, hif]
  · exact hperm.mem_iff.mp (headI_mem_of_ne_nil hne)
  · exact hperm.mem_iff.mp (getLastI_mem_of_ne_nil hne)
  · intro x hx
    exact sorted_headI_min hs x (hperm.mem_iff.mpr hx)
  · intro x hx
    exact sorted_getLastI_max hs x (hperm.mem_iff.mpr hx)

/-- The mock's `identify_source_dest` is the production selection with the
`'device'` fields projected out. -/
theorem mock_identify_eq_map (l : List Device) :
    Mock.identify_source_dest l =
      (SDCC.identify_source_dest l).map fun p => (p.1.device, p.2.device) := by
  by_cases h : l.length < 2 <;>
    simp [Mock.identify_source_dest, SDCC.identify_source_dest, h]

/-! ## Claim C1 -/

/-- The three simulated devices `HeadlessCloner.detect_devices` returns in
TEST_MODE (src/cloner_mock.py lines 102-124), used as concrete inputs. -/
def testDevices : List Device :=
  [{ device := "/dev/disk/by-id/usb-Test_Flash_123456-0:0", name := "sdc",
     size_gb := 32, model := "USB_Flash_Drive" },
   { device := "/dev/disk/by-id/usb-Backup_Plus_789012-0:1", name := "sdd",
     size_gb := 1000, model := "Backup_Plus_HDD" },
   { device := "/dev/disk/by-id/usb-SD_Card_Reader_345678-0:0", name := "sde",
     size_gb := 64, model := "SD_Card_Reader" }]

/-- C1: for every device list of length ≥ 2 with pairwise-distinct sizes
(stated as injectivity of `size_gb` on members), `identify_source_dest`
returns `some (s, d)` with `s` the minimum-size member and `d` the
maximum-size member; the result is unchanged under every permutation of
the input; and the mock variant returns the corresponding path pair. -/
theorem identify_source_dest_min_max_perm (l : List Device) (hlen : 2 ≤ l.length)
    (hdist : ∀ a ∈ l, ∀ b ∈ l, a.size_gb = b.size_gb → a = b) :
    ∃ s d, SDCC.identify_source_dest l = some (s, d) ∧ s ∈ l ∧ d ∈ l ∧
      (∀ x ∈ l, s.size_gb ≤ x.size_gb) ∧ (∀ x ∈ l, x.size_gb ≤ d.size_gb) ∧
      (∀ l' : List Device, l.Perm l' →
        SDCC.identify_source_dest l' = SDCC.identify_source_dest l) ∧
      Mock.identify_source_dest l = some (s.device, d.device) := by
  obtain ⟨s, d, heq, hsmem, hdmem, hmin, hmax⟩ := identify_source_dest_spec hlen
  refine ⟨s, d, heq, hsmem, hdmem, hmin, hmax, ?_, ?_⟩
  · intro l' hp
    have hlen' : 2 ≤ l'.length := hp.length_eq ▸ hlen
    obtain ⟨s', d', heq', hsmem', hdmem', hmin', hmax'⟩ :=
      identify_source_dest_spec hlen'
    have hsl : s' ∈ l := hp.mem_iff.mpr hsmem'
    have hdl : d' ∈ l := hp.mem_iff.mpr hdmem'
    have hs_eq : s' = s := by
      apply hdist s' hsl s hsmem
      exact le_antisymm (hmin' s (hp.mem_iff.mp hsmem)) (hmin s' hsl)
    have hd_eq : d' = d := by
      apply hdist d' hdl d hdmem
      exact le_antisymm (hmax d' hdl) (hmax' d (hp.mem_iff.mp hdmem))
    rw [heq', heq, hs_eq, hd_eq]
  · rw [mock_identify_eq_map, heq]
    rfl

/-- Witness for C1 at the mock's three simulated devices (sizes 32, 1000,
64): the hypotheses hold and the conclusion evaluates. -/
theorem identify_source_dest_min_max_perm_witness :
    (2 ≤ testDevices.length ∧
      ∀ a ∈ testDevices, ∀ b ∈ testDevices, a.size_gb = b.size_gb → a = b) ∧
    (∃ s d, SDCC.identify_source_dest testDevices = some (s, d) ∧
      s ∈ testDevices ∧ d ∈ testDevices ∧
      (∀ x ∈ testDevices, s.size_gb ≤ x.size_gb) ∧
      (∀ x ∈ testDevices, x.size_gb ≤ d.size_gb) ∧
      (∀ l' : List Device, testDevices.Perm l' →
        SDCC.identify_source_dest l' = SDCC.identify_source_dest testDevices) ∧
      Mock.identify_source_dest testDevices = some (s.device, d.device)) :=
  ⟨⟨by decide, by decide⟩,
    identify_source_dest_min_max_perm testDevices (by decide) (by decide)⟩

/-! ## Claim C4 -/

/-- C4: in both variants, validation returns false exactly when the source
size is strictly greater than the destination size (for the mock, the sizes
are those read by `get_device_size`, and the two arguments must be actual
device paths, i.e. not Python-falsy). -/
theorem validate_clone_false_iff :
    (∀ source dest : Device,
      (SDCC.validate_clone source dest = false ↔ dest.size_gb < source.size_gb)) ∧
    (∀ (sizeOf : String → Option Nat) (source dest : Option String),
      Mock.pyFalsy source = false → Mock.pyFalsy dest = false →
      ((Mock.validate_clone sizeOf source dest).1 = false ↔
        Mock.get_device_size sizeOf (dest.getD "") <
          Mock.get_device_size sizeOf (source.getD ""))) := by
  constructor
  · intro source dest
    by_cases h : dest.size_gb < source.size_gb <;>
      simp [SDCC.validate_clone, gt_iff_lt, h]
  · intro sizeOf source dest hsrc hdst
    by_cases h : Mock.get_device_size sizeOf (dest.getD "") <
        Mock.get_device_size sizeOf (source.getD "") <;>
      simp [Mock.validate_clone, hsrc, hdst, h]

/-- Witness for C4: equal sizes (64 = 64) validate as safe in both
variants, at concrete inputs. -/
theorem validate_clone_false_iff_witness :
    (SDCC.validate_clone
        { device := "/dev/sdc", name := "sdc", size_gb := 64, model := "A" }
        { device := "/dev/sdd", name := "sdd", size_gb := 64, model := "B" } =
          false ↔ (64 : ℚ) < 64) ∧
    (Mock.pyFalsy (some "/dev/sdc") = false ∧
      ((Mock.validate_clone (fun _ => some 64) (some "/dev/sdc")
          (some "/dev/sdd")).1 = false ↔
        Mock.get_device_size (fun _ => some 64) "/dev/sdd" <
          Mock.get_device_size (fun _ => some 64) "/dev/sdc")) :=
  ⟨validate_clone_false_iff.1 _ _,
    by decide,
    validate_clone_false_iff.2 (fun _ => some 64) (some "/dev/sdc")
      (some "/dev/sdd") (by decide) (by decide)⟩

/-! ## Claim C5 -/

/-- C5: the per-partition dispatch of `clone_with_rsync` selects the
filesystem-aware strategy exactly for `ext4`, `fat32`, `vfat`, `ntfs`,
`exfat`, and the raw block copy for every other string (in particular for
`""` and `"unknown"`). -/
theorem select_strategy_spec (fstype : String) :
    (Mock.select_strategy fstype = .FilesystemAware ↔
      fstype ∈ Mock.fsAwareTypes) ∧
    (Mock.select_strategy fstype = .RawBlockCopy ↔
      fstype ∉ Mock.fsAwareTypes) ∧
    Mock.select_strategy "" = .RawBlockCopy ∧
    Mock.select_strategy "unknown" = .RawBlockCopy ∧
    Mock.select_strategy "btrfs" = .RawBlockCopy := by
  refine ⟨?_, ?_, by decide, by decide, by decide⟩ <;>
    by_cases h : fstype ∈ Mock.fsAwareTypes <;>
      simp [Mock.select_strategy, h]

/-! ## Claim C10 -/

/-- C10: in the mock, `get_device_size` returns 0 whenever the size read
fails (`sizeOf` returns `none`), and `validate_clone` then accepts the
pair with `(True, "OK")` for every destination, since `0` is never greater
than the destination size. -/
theorem unreadable_source_validates_ok
    (sizeOf : String → Option Nat) (source dest : Option String)
    (hsrc : Mock.pyFalsy source = false) (hdst : Mock.pyFalsy dest = false)
    (hunread : sizeOf (source.getD "") = none) :
    Mock.get_device_size sizeOf (source.getD "") = 0 ∧
    Mock.validate_clone sizeOf source dest = (true, "OK") := by
  have h0 : Mock.get_device_size sizeOf (source.getD "") = 0 := by
    simp [Mock.get_device_size, hunread]
  refine ⟨h0, ?_⟩
  simp [Mock.validate_clone, hsrc, hdst, h0]

/-- Witness for C10: an unreadable source (oracle returns `none` for it)
is validated as safe against a 1000-byte destination. -/
theorem unreadable_source_validates_ok_witness :
    Mock.pyFalsy (some "/dev/sdc") = false ∧
    (fun d => if d = "/dev/sdd" then some 1000 else none) "/dev/sdc" = none ∧
    (Mock.get_device_size (fun d => if d = "/dev/sdd" then some 1000 else none)
        "/dev/sdc" = 0 ∧
      Mock.validate_clone (fun d => if d = "/dev/sdd" then some 1000 else none)
        (some "/dev/sdc") (some "/dev/sdd") = (true, "OK")) :=
  ⟨by decide, by decide,
    unreadable_source_validates_ok _ (some "/dev/sdc") (some "/dev/sdd")
      (by decide) (by decide) (by decide)⟩

/-! ## Claim C2 -/

/-- Oracle under which every `subprocess.run` succeeds, the source is not
already mounted, and the `rsync` `Popen` itself raises (e.g. an `OSError`
while spawning). -/
def envSpawnRaise : Mock.ExecEnv :=
  { exit := fun _ => 0, spawn := fun _ => none, ismount := fun _ => false }

/-- C2 counterexample: with every command succeeding but the `rsync`
`Popen` raising after the source was mounted, `clone_filesystem` performs
two mounts (`/mnt/temp_clone` and `/mnt/temp_source`) yet issues an
`umount` only for `/mnt/temp_clone`: the source mount it created is not
undone on this exit path, refuting the claim at this concrete input. -/
theorem clone_filesystem_source_mount_leak_cex :
    Mock.mountsPerformed
        (Mock.clone_filesystem envSpawnRaise "/dev/sdc1" "/dev/sdd1" "ext4").1 =
      [("/dev/sdd1", Mock.tempMountPt), ("/dev/sdc1", Mock.sourceTempPt)] ∧
    Mock.umountsIssued
        (Mock.clone_filesystem envSpawnRaise "/dev/sdc1" "/dev/sdd1" "ext4").1 =
      [Mock.tempMountPt] ∧
    (Mock.clone_filesystem envSpawnRaise "/dev/sdc1" "/dev/sdd1" "ext4").2 = false := by
  decide

/-- `mountsPerformed` distributes over trace concatenation. -/
theorem mountsPerformed_append (a b : List Mock.Ev) :
    Mock.mountsPerformed (a ++ b) =
      Mock.mountsPerformed a ++ Mock.mountsPerformed b := by
  simp [Mock.mountsPerformed]

/-- `umountsIssued` distributes over trace concatenation. -/
theorem umountsIssued_append (a b : List Mock.Ev) :
    Mock.umountsIssued (a ++ b) =
      Mock.umountsIssued a ++ Mock.umountsIssued b := by
  simp [Mock.umountsIssued]

/-- The `mkfs_cmd` dictionary only ever yields one of four argument
vectors. -/
theorem mkfs_cmd_shape {fstype dest : String} {argv : List String}
    (h : Mock.mkfs_cmd fstype dest = some argv) :
    argv = ["mkfs.ext4", "-F", dest] ∨ argv = ["mkfs.vfat", "-F", "32", dest] ∨
    argv = ["mkfs.ntfs", "-F", dest] ∨ argv = ["mkfs.exfat", dest] := by
  unfold Mock.mkfs_cmd at h
  split at h <;> simp_all

set_option maxHeartbeats 3200000 in
/-- C2 amended: `clone_filesystem` always issues an `umount` of the
destination mountpoint once the destination mount was performed (on every
exit path, success or failure), and issues an `umount` of the source
mountpoint whenever it mounted the source itself and the `rsync` `Popen`
did not raise; but (per the counterexample) the source umount is skipped
when the spawn itself raises. -/
theorem clone_filesystem_unmounts_amended (env : Mock.ExecEnv)
    (source dest fstype : String) :
    ((dest, Mock.tempMountPt) ∈
        Mock.mountsPerformed (Mock.clone_filesystem env source dest fstype).1 →
      Mock.tempMountPt ∈
        Mock.umountsIssued (Mock.clone_filesystem env source dest fstype).1) ∧
    ((source, Mock.sourceTempPt) ∈
        Mock.mountsPerformed (Mock.clone_filesystem env source dest fstype).1 →
      Mock.hasSpawnFail (Mock.clone_filesystem env source dest fstype).1 = false →
      Mock.sourceTempPt ∈
        Mock.umountsIssued (Mock.clone_filesystem env source dest fstype).1) := by
  rcases hmk : Mock.mkfs_cmd fstype dest with _ | argv
  · unfold Mock.clone_filesystem
    rw [hmk]
    dsimp only
    repeat' split
    all_goals refine ⟨fun hmem => ?_, fun hmem hsf => ?_⟩
    all_goals
      simp_all [Mock.mountsPerformed, Mock.umountsIssued, Mock.hasSpawnFail,
        Mock.tempMountPt, Mock.sourceTempPt]
  · rcases mkfs_cmd_shape hmk with rfl | rfl | rfl | rfl <;>
      (unfold Mock.clone_filesystem
       rw [hmk]
       dsimp only
       repeat' split
       all_goals refine ⟨fun hmem => ?_, fun hmem hsf => ?_⟩
       all_goals
         simp_all [Mock.mountsPerformed, Mock.umountsIssued, Mock.hasSpawnFail,
           Mock.tempMountPt, Mock.sourceTempPt])

/-- Oracle under which every external command succeeds. -/
def envAllOk : Mock.ExecEnv :=
  { exit := fun _ => 0, spawn := fun _ => some 0, ismount := fun _ => false }

/-- Witness for the amended C2 statement on a fully successful run: both
mounts are performed and both mountpoints get an `umount`. -/
theorem clone_filesystem_unmounts_amended_witness :
    (("/dev/sdd1", Mock.tempMountPt) ∈
        Mock.mountsPerformed
          (Mock.clone_filesystem envAllOk "/dev/sdc1" "/dev/sdd1" "ext4").1 ∧
      Mock.tempMountPt ∈
        Mock.umountsIssued
          (Mock.clone_filesystem envAllOk "/dev/sdc1" "/dev/sdd1" "ext4").1) ∧
    (("/dev/sdc1", Mock.sourceTempPt) ∈
        Mock.mountsPerformed
          (Mock.clone_filesystem envAllOk "/dev/sdc1" "/dev/sdd1" "ext4").1 ∧
      Mock.hasSpawnFail
          (Mock.clone_filesystem envAllOk "/dev/sdc1" "/dev/sdd1" "ext4").1 =
        false ∧
      Mock.sourceTempPt ∈
        Mock.umountsIssued
          (Mock.clone_filesystem envAllOk "/dev/sdc1" "/dev/sdd1" "ext4").1) :=
  ⟨⟨by decide,
    (clone_filesystem_unmounts_amended envAllOk "/dev/sdc1" "/dev/sdd1" "ext4").1
      (by decide)⟩,
   ⟨by decide, by decide,
    (clone_filesystem_unmounts_amended envAllOk "/dev/sdc1" "/dev/sdd1" "ext4").2
      (by decide) (by decide)⟩⟩

/-! ## Claim C3 -/

/-- Oracle under which every checked command succeeds but the recursive
content-copy process (`rsync`) exits with status 23. -/
def envRsyncExit23 : Mock.ExecEnv :=
  { exit := fun _ => 0, spawn := fun _ => some 23, ismount := fun _ => false }

/-- C3 failing input, evaluated: when the `rsync` content-copy process
exits non-zero (status 23), the mock's `clone_filesystem` still returns
normally (`true`, i.e. no exception), because `process.wait()` at
src/cloner_mock.py line 287 is never followed by a returncode check — so
`start_clone` reports the clone as succeeded.  The production variant's
`clone_device` (src/sdcc_cloner.py lines 196-197) does check and fails the
attempt on the same exit status. -/
theorem rsync_nonzero_exit_reported_success :
    (Mock.clone_filesystem envRsyncExit23 "/dev/sdc1" "/dev/sdd1" "ext4").2 =
      true ∧
    Mock.Ev.popenWait
        ["sudo", "rsync", "-avh", "--progress", "--exclude", "/lost+found",
          "/mnt/temp_source/", "/mnt/temp_clone/"] 23 ∈
      (Mock.clone_filesystem envRsyncExit23 "/dev/sdc1" "/dev/sdd1" "ext4").1 ∧
    SDCC.clone_device_outcome (some 23) = false := by
  decide

/-! ## Claim C6 -/

/-- C6 counterexample: at 2097152 sectors (exactly 1 GiB), the size the
code computes is `1.0` (division by `1024**3`), while the spec's formula
(division by `10^9`, then rounding to 2 decimals) gives `1.07`; and
`detect_devices` records the code's value. -/
theorem size_gb_binary_not_decimal_cex :
    SDCC.code_size_gb 2097152 = 1 ∧
    SDCC.spec_decimal_size_gb 2097152 = 107 / 100 ∧
    SDCC.code_size_gb 2097152 ≠ SDCC.spec_decimal_size_gb 2097152 ∧
    (SDCC.detect_devices (fun s => s)
        [{ name := "sda", isDir := true, sectors := some 2097152,
           model := none, byId := [] }]).map Device.size_gb =
      [SDCC.code_size_gb 2097152] := by
  have h1 : SDCC.code_size_gb 2097152 = 1 := by
    norm_num [SDCC.code_size_gb, round2, roundHalfEven]
  have h2 : SDCC.spec_decimal_size_gb 2097152 = 107 / 100 := by
    norm_num [SDCC.spec_decimal_size_gb, round2, roundHalfEven]
  refine ⟨h1, h2, ?_, rfl⟩
  rw [h1, h2]
  norm_num

/-- C6 amended: every device produced by `detect_devices` carries as
`size_gb` the value `round(sectors * 512 / 1024**3, 2)` — binary
gigabytes rounded to 2 decimal places — computed before any comparison is
made (the classification and validation steps only ever read this field). -/
theorem detect_devices_size_gb_binary (resolve : String → String)
    (entries : List SDCC.BlockEntry) (d : Device)
    (hd : d ∈ SDCC.detect_devices resolve entries) :
    ∃ e ∈ entries, ∃ sectors, e.sectors = some sectors ∧ d.name = e.name ∧
      d.size_gb = SDCC.code_size_gb sectors := by
  simp only [SDCC.detect_devices, List.mem_filterMap] at hd
  obtain ⟨e, he, hmap⟩ := hd
  refine ⟨e, he, ?_⟩
  split at hmap
  · exact absurd hmap (by simp)
  · split at hmap
    · exact absurd hmap (by simp)
    · split at hmap
      · exact absurd hmap (by simp)
      · next size hsec =>
        rw [Option.some_inj] at hmap
        refine ⟨size, hsec, ?_, ?_⟩
        · rw [← hmap]
        · rw [← hmap]
          rfl

/-- A concrete `/sys/block` entry: a 1-GiB disk `sda` with no model file
and no by-id alias. -/
def entryGib : SDCC.BlockEntry :=
  { name := "sda", isDir := true, sectors := some 2097152,
    model := none, byId := [] }

/-- The catalog entry `detect_devices` produces for `entryGib`. -/
def devGib : Device :=
  { device := "/dev/sda", name := "sda",
    size_gb := SDCC.code_size_gb 2097152, model := "Unknown" }

/-- Witness for the amended C6 statement at the concrete 1-GiB entry. -/
theorem detect_devices_size_gb_binary_witness :
    devGib ∈ SDCC.detect_devices (fun s => s) [entryGib] ∧
    (∃ e ∈ [entryGib], ∃ sectors, e.sectors = some sectors ∧
      devGib.name = e.name ∧ devGib.size_gb = SDCC.code_size_gb sectors) :=
  have hmem : devGib ∈ SDCC.detect_devices (fun s => s) [entryGib] := by
    rw [show SDCC.detect_devices (fun s => s) [entryGib] = [devGib] from rfl]
    exact List.mem_singleton_self _
  ⟨hmem, detect_devices_size_gb_binary (fun s => s) [entryGib] devGib hmem⟩

/-! ## Claim C7 -/

/-- A concrete `/sys/block` entry with a by-id alias: kernel name `sdc`,
whose alias `/dev/disk/by-id/usb-Test_Flash_123456-0:0` is a symlink
resolving to `/dev/sdc`. -/
def entryById : SDCC.BlockEntry :=
  { name := "sdc", isDir := true, sectors := some 62521344,
    model := some "Flash Drive",
    byId := ["/dev/disk/by-id/usb-Test_Flash_123456-0:0"] }

/-- The symlink-resolution oracle for `entryById`: the by-id alias
resolves (as `/dev/disk/by-id` symlinks do) to the kernel device node. -/
def resolveById : String → String := fun p =>
  if p = "/dev/disk/by-id/usb-Test_Flash_123456-0:0" then "/dev/sdc" else p

/-- C7 evaluated at the failing input: although the device has a by-id
alias, `detect_devices` records `by_id[0].resolve()`
(src/sdcc_cloner.py lines 116-117), i.e. the transient kernel path
`/dev/sdc`, not the stable by-id path — the `resolve()` call follows the
symlink back to the kernel name, defeating the stated preference. -/
theorem detect_devices_records_kernel_path :
    entryById.byId ≠ [] ∧
    (SDCC.detect_devices resolveById [entryById]).map Device.device =
      ["/dev/sdc"] ∧
    "/dev/sdc" ≠ "/dev/disk/by-id/usb-Test_Flash_123456-0:0" := by
  refine ⟨by decide, rfl, by decide⟩

/-! ## Claim C8 -/

/-- Dropping the leading `true`s of an all-`true` list leaves nothing. -/
theorem dropWhile_id_replicate_true (m : Nat) :
    (List.replicate m true).dropWhile id = [] := by
  induction m with
  | zero => rfl
  | succ n ih => simp [List.replicate_succ, List.dropWhile_cons, ih]

/-- C8, evaluated against both loops.  Production `main_loop`: a signal
held active for `n ≥ 1` consecutive polls triggers exactly one clone
attempt only when the first triggered pass reaches `clone_device`
(`pass2dd k = true`), because only then does the release-wait at
src/sdcc_cloner.py lines 273-274 consume the held samples; when every
pass ends at one of the `continue` statements (lines 246, 258, 263 —
e.g. fewer than 2 devices stay attached), the release-wait is skipped
and a held signal triggers one attempt PER ITERATION: `n` held samples
give `n` attempts, refuting the claim for production as well.  The mock
`main_loop` in TEST_MODE retriggers unconditionally: two consecutive
active samples already start two attempts. -/
theorem held_signal_one_attempt :
    (∀ (pass2dd : Nat → Bool) (k n : Nat), 1 ≤ n → pass2dd k = true →
      SDCC.mainLoopAttempts pass2dd k (List.replicate n true) = 1) ∧
    (∀ k n : Nat,
      SDCC.mainLoopAttempts (fun _ => false) k (List.replicate n true) = n) ∧
    Mock.mainLoopAttempts false (List.replicate 2 true) = 2 := by
  refine ⟨?_, ?_, rfl⟩
  · intro pass2dd k n hn hk
    obtain ⟨m, rfl⟩ : ∃ m, n = m + 1 := ⟨n - 1, by omega⟩
    rw [List.replicate_succ]
    simp [SDCC.mainLoopAttempts, hk, dropWhile_id_replicate_true]
  · intro k n
    induction n generalizing k with
    | zero => simp [SDCC.mainLoopAttempts]
    | succ m ih =>
      rw [List.replicate_succ]
      simp [SDCC.mainLoopAttempts, ih]
      omega

/-- Witness for C8: three held samples give one attempt when the first
pass reaches `clone_device`, but three attempts when every pass ends at a
`continue`. -/
theorem held_signal_one_attempt_witness :
    1 ≤ 3 ∧ (fun _ : Nat => true) 0 = true ∧
    SDCC.mainLoopAttempts (fun _ => true) 0 (List.replicate 3 true) = 1 ∧
    SDCC.mainLoopAttempts (fun _ => false) 0 (List.replicate 3 true) = 3 :=
  ⟨by decide, rfl,
    held_signal_one_attempt.1 (fun _ => true) 0 3 (by decide) rfl,
    held_signal_one_attempt.2.1 0 3⟩

/-! ## Claim C9 -/

/-- C9 evaluated on the success path of the production variant: after a
successful clone, `clone_device` returns with the DONE LED still lit
(src/sdcc_cloner.py line 204; no `led_off_all` follows on the success
path), and the next main-loop iteration blinks the READY LED — leaving
two state indicators active at once, refuting exclusive indicator
patterns. -/
theorem done_led_persists_into_ready :
    (runLedOps ⟨false, false, false⟩ sdccSuccessOps).done = true ∧
    (runLedOps ⟨false, false, false⟩ sdccSuccessOps).ready = true ∧
    litCount (runLedOps ⟨false, false, false⟩ sdccSuccessOps) = 2 := by
  decide
